import Mathlib

/-!
# Verification of the degiroasync session / orders core

Shallow embedding of the `degiroasync` client library
(`degiroasync/webapi/webapi.py`, `degiroasync/webapi/login.py`,
`degiroasync/api/orders.py`) and proofs about it.

Conventions of the embedding:
* Python `bytes` values are `List Nat` with every element `< 256`;
  machine words are `Nat` reduced modulo `2 ^ 32` (resp. `2 ^ 64`)
  exactly where the Python code relies on fixed-width behaviour.
* Fallible Python code (raising exceptions) is embedded as
  `Except PyError _`; the raised exception class/message is carried in
  the `PyError` value.
* Network calls are embedded as environments carrying the server's
  (parsed) responses; each operation additionally returns the list of
  requests it issued, in order, so that "no further network side
  effect" claims are expressible.
* Parts of the repository referenced by the embedded modules but not
  available under `src/` (the `core` module, `api.product`, the
  `webapi` order/transaction endpoints) are modelled from the spec;
  each such definition carries a doc comment starting with
  `Modelled from the spec:`.
-/

namespace Degiroasync

/-! ## Bytes and fixed-width words -/

/-- Reduce to a 32-bit machine word, as Python's explicit masks and
`struct.pack` boundaries require. -/
def w32 (n : Nat) : Nat := n % 4294967296

/-- Rotate a 32-bit word left by `s` bits (for `n < 2 ^ 32`, `s ≤ 32`). -/
def rotl (s n : Nat) : Nat := w32 ((n <<< s) ||| (n >>> (32 - s)))

/-- Big-endian 4-byte word from a byte list: Python `struct.unpack(">I", bs)[0]`. -/
def unpack4BE (bs : List Nat) : Nat := bs.foldl (fun a b => a * 256 + b) 0

/-- Big-endian 8-byte encoding: Python `struct.pack(">Q", n)` for `n < 2 ^ 64`. -/
def pack8BE (n : Nat) : List Nat :=
  [n / 2 ^ 56 % 256, n / 2 ^ 48 % 256, n / 2 ^ 40 % 256, n / 2 ^ 32 % 256,
   n / 2 ^ 24 % 256, n / 2 ^ 16 % 256, n / 2 ^ 8 % 256, n % 256]

/-- Big-endian 4-byte encoding of a 32-bit word. -/
def wordBytes (n : Nat) : List Nat :=
  [n / 2 ^ 24 % 256, n / 2 ^ 16 % 256, n / 2 ^ 8 % 256, n % 256]

/-! ## SHA-1 (`hashlib.sha1`)

The Python code delegates to `hashlib`/`hmac`; the algorithm is embedded
here so that `_get_totp_token` is a closed executable function. -/

/-- Merkle–Damgård padding of SHA-1: append `0x80`, zero bytes up to
56 mod 64, then the 64-bit big-endian bit length. -/
def sha1Pad (msg : List Nat) : List Nat :=
  let len := msg.length
  let k := (119 - len % 64) % 64
  msg ++ 0x80 :: List.replicate k 0 ++ pack8BE (8 * len)

/-- SHA-1 round function. -/
def sha1F (i b c d : Nat) : Nat :=
  if i < 20 then (b &&& c) ||| ((b ^^^ 0xFFFFFFFF) &&& d)
  else if i < 40 then b ^^^ c ^^^ d
  else if i < 60 then (b &&& c) ||| (b &&& d) ||| (c &&& d)
  else b ^^^ c ^^^ d

/-- SHA-1 round constants. -/
def sha1K (i : Nat) : Nat :=
  if i < 20 then 0x5A827999
  else if i < 40 then 0x6ED9EBA1
  else if i < 60 then 0x8F1BBCDC
  else 0xCA62C1D6

/-- Message-schedule extension; `rev` holds already-computed words most
recent first, so `w i-3, w i-8, w i-14, w i-16` sit at positions
`2, 7, 13, 15`. -/
def sha1Schedule : Nat → List Nat → List Nat
  | 0, rev => rev
  | n + 1, rev =>
    let x := (rev.getD 2 0) ^^^ (rev.getD 7 0) ^^^ (rev.getD 13 0) ^^^ (rev.getD 15 0)
    sha1Schedule n (rotl 1 x :: rev)

/-- One SHA-1 compression round, folding over `(index, scheduled word)`. -/
def sha1Round (st : Nat × Nat × Nat × Nat × Nat) (iw : Nat × Nat) :
    Nat × Nat × Nat × Nat × Nat :=
  let (a, b, c, d, e) := st
  let t := w32 (rotl 5 a + sha1F iw.1 b c d + e + sha1K iw.1 + iw.2)
  (t, a, rotl 30 b, c, d)

/-- Process one 64-byte block. -/
def sha1Block (h : Nat × Nat × Nat × Nat × Nat) (block : List Nat) :
    Nat × Nat × Nat × Nat × Nat :=
  let ws16 := (List.range 16).map (fun i => unpack4BE ((block.drop (4 * i)).take 4))
  let ws := (sha1Schedule 64 ws16.reverse).reverse
  let (h0, h1, h2, h3, h4) := h
  let (a, b, c, d, e) := ws.enum.foldl sha1Round h
  (w32 (h0 + a), w32 (h1 + b), w32 (h2 + c), w32 (h3 + d), w32 (h4 + e))

/-- SHA-1 digest (20 bytes) of a byte string. -/
def sha1 (msg : List Nat) : List Nat :=
  let padded := sha1Pad msg
  let blocks := (List.range (padded.length / 64)).map
    (fun i => (padded.drop (64 * i)).take 64)
  let (h0, h1, h2, h3, h4) :=
    blocks.foldl sha1Block (0x67452301, 0xEFCDAB89, 0x98BADCFE, 0x10325476, 0xC3D2E1F0)
  wordBytes h0 ++ wordBytes h1 ++ wordBytes h2 ++ wordBytes h3 ++ wordBytes h4

/-- HMAC-SHA1 (`hmac.new(key, message, hashlib.sha1).digest()`);
the SHA-1 block size is 64 bytes. -/
def hmacSha1 (key msg : List Nat) : List Nat :=
  let key := if 64 < key.length then sha1 key else key
  let key := key ++ List.replicate (64 - key.length) 0
  sha1 ((key.map (· ^^^ 0x5c)) ++ sha1 ((key.map (· ^^^ 0x36)) ++ msg))

/-! ## Base32 decoding (`base64.b32decode`) -/

/-- Value of one RFC 4648 base32 alphabet character. -/
def b32CharVal (c : Char) : Option Nat :=
  if 'A' ≤ c ∧ c ≤ 'Z' then some (c.toNat - 65)
  else if '2' ≤ c ∧ c ≤ '7' then some (c.toNat - 24)
  else none

/-- Pack a stream of 5-bit values into bytes, dropping leftover bits,
as `base64.b32decode` does. -/
def b32BytesOfVals (vals : List Nat) : List Nat :=
  (vals.foldl
    (fun (st : Nat × Nat × List Nat) v =>
      let acc := st.1 * 32 + v
      let nbits := st.2.1 + 5
      if 8 ≤ nbits then (acc % 2 ^ (nbits - 8), nbits - 8, st.2.2 ++ [acc / 2 ^ (nbits - 8)])
      else (acc, nbits, st.2.2))
    (0, 0, [])).2.2

/-- Python `base64.b32decode` (default `casefold=False`): length must be
a multiple of 8, `=` padding only at the end with a valid pad count
(0, 1, 3, 4 or 6), characters restricted to `A`–`Z` and `2`–`7`;
`none` models the raised `binascii.Error`. -/
def b32decode (s : String) : Option (List Nat) :=
  let cs := s.data
  if cs.length % 8 ≠ 0 then none
  else
    let body := cs.takeWhile (fun c => c ≠ '=')
    let pad := cs.length - body.length
    if (cs.drop body.length).any (fun c => c ≠ '=') then none
    else if pad ≠ 0 ∧ pad ≠ 1 ∧ pad ≠ 3 ∧ pad ≠ 4 ∧ pad ≠ 6 then none
    else (body.mapM b32CharVal).map b32BytesOfVals

/-! ## Errors raised by the embedded Python code -/

/-- Exceptions the embedded code can raise. -/
inductive PyError where
  /-- Python `AssertionError`, used by the source both for missing
  challenge credentials and for a missing session cookie. -/
  | assertionError (msg : String)
  /-- Python `KeyError` from a dict lookup (side-code translation,
  cookie access, response field access). -/
  | keyError (key : String)
  /-- `check_response` failure on a non-success HTTP status
  (`ApiStatusError` in the spec taxonomy). -/
  | responseError (statusCode : Nat)
  /-- `binascii.Error` from `base64.b32decode` on a malformed secret. -/
  | invalidBase32
  /-- `struct.error`: `struct.pack(">Q", v)` rejects `v ≥ 2 ^ 64`. -/
  | structError
  /-- Batch product resolution failed for the given id
  (`ResolutionError` in the spec taxonomy). -/
  | resolutionError (id : String)
deriving DecidableEq, Repr

/-! ## TOTP generator (`_get_totp_token`)

Identical copies live in `webapi/login.py` (lines 160–168) and
`webapi/webapi.py` (lines 1027–1035); `now` stands for
`int(time.time())`. -/

/-- `_get_totp_token(secret_key)` with explicit clock `now`.

```python
key = base64.b32decode(secret_key)
message = struct.pack(">Q", int(time.time()) // 30)
message_hash = hmac.new(key, message, hashlib.sha1).digest()
o = message_hash[19] & 15
message_hash = (struct.unpack(">I", message_hash[o:o+4])[0] & 0x7fffffff) % 1000000
return message_hash
```
-/
def _get_totp_token (now : Nat) (secret_key : String) : Except PyError Nat :=
  match b32decode secret_key with
  | none => .error .invalidBase32
  | some key =>
    if now / 30 < 2 ^ 64 then
      let message := pack8BE (now / 30)
      let message_hash := hmacSha1 key message
      let o := message_hash.getD 19 0 &&& 15
      .ok ((unpack4BE ((message_hash.drop o).take 4) &&& 0x7fffffff) % 1000000)
    else .error .structError

/-- Follows the spec's words (§4.1 TOTP Generator), for comparison with
the source-translated `_get_totp_token`: HMAC-SHA1 keyed by the decoded
secret over an 8-byte big-endian counter equal to `floor(timestamp/30)`;
dynamic truncation selects a 4-byte window at offset `lastByte & 0xF`,
masks the top bit, reduces modulo 1,000,000. -/
def totp_spec (secret : String) (timestamp : Nat) : Except PyError Nat :=
  match b32decode secret with
  | none => .error .invalidBase32
  | some key =>
    if timestamp / 30 < 2 ^ 64 then
      let digest := hmacSha1 key (pack8BE (timestamp / 30))
      let offset := digest.getD 19 0 &&& 0xF
      let window := unpack4BE ((digest.drop offset).take 4)
      .ok ((window &&& 0x7FFFFFFF) % 1000000)
    else .error .structError

/-! ## Dates (`datetime.datetime`, day-resolution `strftime`)

`datetime.datetime` values are embedded as seconds since the Unix epoch
(`Int`, so pre-1970 instants arising from `to_date - 7 days` are
representable); `//`-style floor division matches Python via `Int.fdiv`. -/

/-- A `datetime.datetime` value, as seconds since the Unix epoch. -/
structure PyDateTime where
  secs : Int
deriving DecidableEq, Repr

/-- `d - datetime.timedelta(days=n)`. -/
def PyDateTime.subDays (d : PyDateTime) (n : Int) : PyDateTime :=
  ⟨d.secs - n * 86400⟩

/-- Civil date (year, month, day) of a day count since 1970-01-01
(Howard Hinnant's `civil_from_days` algorithm). -/
def civilFromDays (z0 : Int) : Int × Nat × Nat :=
  let z := z0 + 719468
  let era := Int.fdiv z 146097
  let doe := (z - era * 146097).toNat
  let yoe := (doe - doe / 1460 + doe / 36524 - doe / 146096) / 365
  let y := (yoe : Int) + era * 400
  let doy := doe - (365 * yoe + yoe / 4 - yoe / 100)
  let mp := (5 * doy + 2) / 153
  let d := doy - (153 * mp + 2) / 5 + 1
  let m := if mp < 10 then mp + 3 else mp - 9
  (if m ≤ 2 then y + 1 else y, m, d)

/-- Left-pad to two digits, as `strftime`'s `%m`/`%d` do. -/
def pad2 (n : Nat) : String :=
  if n < 10 then "0" ++ toString n else toString n

/-- Render a `strftime` format string over the civil date `(y, m, d)`;
only the `%Y`, `%m`, `%d` directives occur in this code base. -/
def renderFmt : List Char → Int → Nat → Nat → List Char
  | '%' :: 'Y' :: rest, y, m, d => (toString y).data ++ renderFmt rest y m d
  | '%' :: 'm' :: rest, y, m, d => (pad2 m).data ++ renderFmt rest y m d
  | '%' :: 'd' :: rest, y, m, d => (pad2 d).data ++ renderFmt rest y m d
  | c :: rest, y, m, d => c :: renderFmt rest y m d
  | [], _, _, _ => []

/-- `d.strftime(fmt)` at day resolution. -/
def PyDateTime.strftime (d : PyDateTime) (fmt : String) : String :=
  let c := civilFromDays (Int.fdiv d.secs 86400)
  ⟨renderFmt fmt.data c.1 c.2.1 c.2.2⟩

/-- Modelled from the spec: `webapi.ORDER_DATE_FORMAT`, the fixed date
format constant shared by every endpoint that takes a date range, is not
under `src/`; per spec §6 date parameters are ISO-8601 date strings on
the wire. -/
def ORDER_DATE_FORMAT : String := "%Y-%m-%d"

/-! ## Core data model

Modelled from the spec where the `degiroasync.core` module (not under
`src/`) is the authority; field names follow the source's uses
(`session._cookies`, `session.config`, `session.client`,
`SessionCore.JSESSIONID`). -/

/-- Modelled from the spec: `core.Credentials` (not under `src/`) —
username, password, optional TOTP secret, optional one-time code
(spec §3). -/
structure Credentials where
  username : String
  password : String
  totp_secret : Option String := none
  one_time_password : Option String := none
deriving DecidableEq, Repr

/-- Modelled from the spec: `core.Config` (not under `src/`) — session
id, search/trading URLs, numeric client token stored by the config
enrichment step (spec §3, §4.2). -/
structure Config where
  sessionId : String := ""
  productSearchUrl : String := ""
  tradingUrl : String := ""
  clientId : Nat := 0
deriving DecidableEq, Repr

/-- Modelled from the spec: `core.PAClient` (not under `src/`) — the
account identifier fetched by client-info enrichment (spec §4.2). -/
structure PAClient where
  intAccount : Nat := 0
deriving DecidableEq, Repr

/-- Modelled from the spec: `core.SessionCore` (not under `src/`) —
Session State: cookie jar, per-account configuration and client info,
populated incrementally by login → config → client-info (spec §3). -/
structure SessionCore where
  _cookies : List (String × String) := []
  config : Option Config := none
  client : Option PAClient := none
deriving DecidableEq, Repr

/-- The session-identifying cookie name (`SessionCore.JSESSIONID`). -/
def SessionCore.JSESSIONID : String := "JSESSIONID"

/-- An `httpx` response as far as the embedded code inspects it:
HTTP status code, the `status` field of the JSON body (when present),
and the response cookies. -/
structure HttpResponse where
  status_code : Nat := 200
  jsonStatus : Option Nat := none
  cookies : List (String × String) := []
deriving DecidableEq, Repr

/-- Modelled from the spec: `core.helpers.check_response` (not under
`src/`) — uniform response validation (spec §7): a non-success HTTP
status raises `ApiStatusError`; otherwise the call proceeds. -/
def check_response (r : HttpResponse) : Except PyError Unit :=
  if r.status_code = 200 then .ok () else .error (.responseError r.status_code)

/-- Modelled from the spec: `core.constants.DegiroStatus.TOTP_NEEDED`
(not under `src/`) — the login-response status value meaning
"multi-factor required" (spec §4.2); only equality with it is ever
used, so the concrete number is immaterial. -/
def TOTP_NEEDED : Nat := 6

/-! ## Network requests

Each embedded operation returns the list of requests it issued, in
order, alongside its outcome. Endpoints referenced but not under
`src/` (`webapi.get_orders`, `webapi.get_orders_history`,
`webapi.get_transactions`, `webapi.check_order`) are modelled from
spec §6: a single trading-update endpoint parameterized by flags, a
history/transactions window parameterized by formatted dates, and a
multi-id product-info request. -/

/-- Value stored under `payload["oneTimePassword"]`: an `int` when it
comes from `_get_totp_token`, a `str` when caller-supplied. -/
inductive OtpValue where
  | num (n : Nat)
  | str (s : String)
deriving DecidableEq, Repr

/-- The JSON payload posted to the login (and TOTP challenge) endpoint. -/
structure LoginPayload where
  username : String
  password : String
  isRedirectToMobile : Bool := false
  isPassCodeReset : String := ""
  queryParamsReason : String := "session_expired"
  oneTimePassword : Option OtpValue := none
deriving DecidableEq, Repr

/-- One outgoing network request. -/
inductive Request where
  /-- `POST URLs.LOGIN` with the credentials payload. -/
  | loginPost (payload : LoginPayload)
  /-- `POST URLs.LOGIN_TOTP` with the payload extended by the one-time
  password, carrying the first response's cookies. -/
  | totpPost (payload : LoginPayload)
  /-- Trading-update endpoint parameterized by flags. -/
  | tradingUpdate (flags : List String)
  /-- Historical-orders endpoint with a formatted date window. -/
  | ordersHistory (fromDate toDate : String)
  /-- Transactions endpoint with a formatted date window. -/
  | transactionsUpdate (fromDate toDate : String)
  /-- Batched product-info request for the given ids. -/
  | productsInfo (ids : List String)
  /-- Client-info endpoint, with the session id taken from the cookie. -/
  | clientInfo (sessionId : String)
  /-- Order-check endpoint. -/
  | checkOrder (productId : String) (buySell : String) (timeType orderType : Nat)
      (size : Int) (price : Option ℚ)
deriving DecidableEq, Repr

/-! ## `login` (`webapi/webapi.py` lines 33–87, identically
`webapi/login.py` lines 21–75) -/

/-- The initial login payload built from the credentials. -/
def mkLoginPayload (creds : Credentials) : LoginPayload :=
  { username := creds.username, password := creds.password }

/-- Message of the `AssertionError` raised when MFA is challenged but
no TOTP secret nor one-time password is available
(`MissingChallengeCredential` in the spec taxonomy). -/
def missingTotpMsg : String :=
  "Account has TOTP enabled, but no TOTP secret nor one_time_password was provided."

/-- Message of the `AssertionError` raised when the terminal response
lacks the session cookie (`NoSessionId` in the spec taxonomy). -/
def noSessionMsg : String := "No JSESSIONID in response."

/-- Result of a `login` call: the issued requests, the state of the
caller-held session object after the call (the source mutates it in
place), and the returned session or raised error. -/
structure LoginResult where
  trace : List Request
  session : SessionCore
  outcome : Except PyError SessionCore
deriving Repr

/-- The environment of one `login` run: the clock and the server's two
possible responses (initial login, TOTP challenge). -/
structure LoginEnv where
  now : Nat := 0
  loginResp : HttpResponse := {}
  totpResp : HttpResponse := {}

/-- Tail of `login` after a terminal `response` is at hand
(`webapi/webapi.py` lines 78–87):

```python
check_response(response)
session._cookies = response.cookies
if SessionCore.JSESSIONID not in session._cookies:
    ...
    raise AssertionError("No JSESSIONID in response.")
return session
```

Note the cookie assignment happens before the `JSESSIONID` check. -/
def finishLogin (trace : List Request) (response : HttpResponse)
    (session : SessionCore) : LoginResult :=
  match check_response response with
  | .error e => ⟨trace, session, .error e⟩
  | .ok _ =>
    let session := { session with _cookies := response.cookies }
    match session._cookies.lookup SessionCore.JSESSIONID with
    | some _ => ⟨trace, session, .ok session⟩
    | none => ⟨trace, session, .error (.assertionError noSessionMsg)⟩

/-- `login(credentials, session)` (`webapi/webapi.py` lines 33–87).
The first `POST` always carries the bare credentials payload; on a
`TOTP_NEEDED` status the payload is extended with the one-time password
(computed from the secret when present, else the caller-supplied code)
and re-posted to the challenge endpoint; if neither is available an
`AssertionError` is raised with no further request. -/
def login (env : LoginEnv) (credentials : Credentials)
    (session : Option SessionCore) : LoginResult :=
  let session := session.getD {}
  let payload := mkLoginPayload credentials
  match env.loginResp.jsonStatus with
  | none => ⟨[.loginPost payload], session, .error (.keyError "status")⟩
  | some status =>
    if status = TOTP_NEEDED then
      match credentials.totp_secret, credentials.one_time_password with
      | none, none =>
        ⟨[.loginPost payload], session, .error (.assertionError missingTotpMsg)⟩
      | some secret, _ =>
        match _get_totp_token env.now secret with
        | .error e => ⟨[.loginPost payload], session, .error e⟩
        | .ok token =>
          finishLogin
            [.loginPost payload, .totpPost { payload with oneTimePassword := some (.num token) }]
            env.totpResp session
      | none, some otp =>
        finishLogin
          [.loginPost payload, .totpPost { payload with oneTimePassword := some (.str otp) }]
          env.totpResp session
    else
      finishLogin [.loginPost payload] env.loginResp session

/-! ## `get_client_info` (`webapi/webapi.py` lines 106–119) -/

/-- Environment of a `get_client_info` run: the server response and its
parsed `data` field (a `PAClient` when well-formed). -/
structure ClientInfoEnv where
  resp : HttpResponse := {}
  respData : Option PAClient := none

/-- `get_client_info(session)` (`webapi/webapi.py` lines 106–119).
The URL helper `URLs.get_client_info_url` lives in `core` (not under
`src/`); modelled from the spec (§4.2): it depends only on the static
base URL, not on `session.config`. The `sessionId` query parameter is
`session._cookies[JSESSIONID]`, whose lookup raises `KeyError` before
any request when the cookie is absent. -/
def get_client_info (env : ClientInfoEnv) (session : SessionCore) :
    List Request × Except PyError SessionCore :=
  match session._cookies.lookup SessionCore.JSESSIONID with
  | none => ([], .error (.keyError SessionCore.JSESSIONID))
  | some sid =>
    ([.clientInfo sid],
      match check_response env.resp with
      | .error e => .error e
      | .ok _ =>
        match env.respData with
        | none => .error (.keyError "data")
        | some pa => .ok { session with client := some pa })

/-! ## Domain data model (`api/orders.py`) -/

/-- Side of an order (`core.ORDER.ACTION`, not under `src/`; modelled
from the spec: side is buy/sell). The wire codes are the strings
`"B"` / `"S"`. -/
inductive ORDER.ACTION where
  | BUY
  | SELL
deriving DecidableEq, Repr

/-- Modelled from the spec: `api.product.ProductBase` (not under
`src/`) — Product identity (id, ISIN, symbol) plus trading metadata
(spec §3); the source accesses `product.base.id`, collapsed here to
`Product.id`. -/
structure Product where
  id : String
  isin : String := ""
  symbol : String := ""
  currency : String := ""
deriving DecidableEq, Repr

/-- A raw order record of the trading-update / history responses, with
the wire (camelCase) field names; numeric JSON values are embedded as
`ℚ`. -/
structure RawOrder where
  created : String := ""
  orderId : String := ""
  productId : Nat := 0
  size : ℚ := 0
  price : ℚ := 0
  buysell : String := "B"
  orderTypeId : Nat := 0
  orderTimeTypeId : Nat := 0
  currentTradedSize : Int := 0
  totalTradedSize : Int := 0
  type : String := ""
  isActive : Bool := true
  status : String := ""
deriving DecidableEq, Repr

/-- The `Order` class of `api/orders.py` (lines 24–38): the raw record
after in-place translation (`productId` stringified, `buysell`
translated to `ORDER.ACTION`). -/
structure Order where
  created : String
  orderId : String
  productId : String
  size : ℚ
  price : ℚ
  buysell : ORDER.ACTION
  orderTypeId : Nat
  orderTimeTypeId : Nat
  currentTradedSize : Int
  totalTradedSize : Int
  type : String
  isActive : Bool
  status : String
deriving DecidableEq, Repr

/-- A raw transaction record of the trading-update response, wire
(camelCase) field names. The `date` field arrives as an ISO-8601
string and is parsed by `datetime.fromisoformat`; that parsing is JSON
deserialization mechanics (excluded per spec §1), so the field is
embedded already as a `PyDateTime`. -/
structure RawTransaction where
  id : Nat := 0
  productId : Nat := 0
  date : PyDateTime := ⟨0⟩
  buysell : String := "B"
  price : ℚ := 0
  quantity : ℚ := 0
  total : ℚ := 0
  transfered : Bool := false
  fxRate : ℚ := 0
  totalInBaseCurrency : ℚ := 0
  totalPlusFeeInBaseCurrency : ℚ := 0
deriving DecidableEq, Repr

/-- The `Transaction` class of `api/orders.py` (lines 45–57): id
stringified, product hydrated, side translated, remaining fields
renamed from camelCase to snake_case by `camelcase_dict_to_snake`. -/
structure Transaction where
  id : String
  product : Product
  date : PyDateTime
  buysell : ORDER.ACTION
  price : ℚ
  quantity : ℚ
  total : ℚ
  transfered : Bool
  fx_rate : ℚ
  total_in_base_currency : ℚ
  total_plus_fee_in_base_currency : ℚ
deriving DecidableEq, Repr

/-! ## Side-code translation -/

/-- The dict lookup `{'B': ORDER.ACTION.BUY, 'S': ORDER.ACTION.SELL}[code]`
of `api/orders.py` (lines 145–148 and 189–190); `none` models the
raised `KeyError`. -/
def buysell_map (code : String) : Option ORDER.ACTION :=
  if code = "B" then some .BUY
  else if code = "S" then some .SELL
  else none

/-- Translate one raw order in place (`api/orders.py` lines 143–148):
stringify `productId`, translate `buysell`; an unknown side code
raises `KeyError`. -/
def order_of_raw (o : RawOrder) : Except PyError Order :=
  match buysell_map o.buysell with
  | none => .error (.keyError o.buysell)
  | some a =>
    .ok { created := o.created, orderId := o.orderId, productId := toString o.productId,
          size := o.size, price := o.price, buysell := a, orderTypeId := o.orderTypeId,
          orderTimeTypeId := o.orderTimeTypeId, currentTradedSize := o.currentTradedSize,
          totalTradedSize := o.totalTradedSize, type := o.type, isActive := o.isActive,
          status := o.status }

/-- Translate a list of raw orders in the loop order of the source;
the first untranslatable record raises. -/
def orders_of_raw : List RawOrder → Except PyError (List Order)
  | [] => .ok []
  | o :: rest =>
    match order_of_raw o with
    | .error e => .error e
    | .ok o' =>
      match orders_of_raw rest with
      | .error e => .error e
      | .ok os => .ok (o' :: os)

/-! ## `get_orders` (`api/orders.py` lines 110–152) -/

/-- Environment of a `get_orders` run: the clock
(`datetime.datetime.today()`) and the parsed outcomes of the two
concurrent fetches (`resp.json()['orders']['value']` and
`resp.json()['data']`). -/
structure OrdersEnv where
  now : PyDateTime := ⟨0⟩
  currentResp : Except PyError (List RawOrder) := .ok []
  historyResp : Except PyError (List RawOrder) := .ok []

/-- `get_orders(session, from_date, to_date)` (`api/orders.py` lines
110–152): default `to_date` to today and `from_date` to
`to_date - 7 days`; fetch current and historical orders concurrently
(`asyncio.gather` issues both requests; the first failure aborts the
whole call); translate every record of both lists identically and
return the two collections. -/
def get_orders (env : OrdersEnv) (from_date to_date : Option PyDateTime) :
    List Request × Except PyError (List Order × List Order) :=
  let to_d := to_date.getD env.now
  let from_d := from_date.getD (to_d.subDays 7)
  ([.tradingUpdate ["orders", "historicalOrders"],
    .ordersHistory (from_d.strftime ORDER_DATE_FORMAT) (to_d.strftime ORDER_DATE_FORMAT)],
    match env.currentResp, env.historyResp with
    | .error e, _ => .error e
    | .ok _, .error e => .error e
    | .ok cur, .ok hist =>
      match orders_of_raw cur with
      | .error e => .error e
      | .ok cur' =>
        match orders_of_raw hist with
        | .error e => .error e
        | .ok hist' => .ok (cur', hist'))

/-! ## `get_transactions` (`api/orders.py` lines 155–196) -/

/-- Modelled from the spec: `api.product.ProductFactory.init_batch`
(not under `src/`) resolves a sequence of product ids to one `Product`
per input id, in the same order as the input (spec §4.4); a missing id
yields an error marker (`none`) at its position instead of aborting
the batch. -/
def init_batch (resolve : String → Option Product) (ids : List String) :
    List (Option Product) :=
  ids.map resolve

/-- `_build_transaction(prod, trans)` (`api/orders.py` lines 184–192):
stringify the id, attach the resolved product, translate the side code
(`KeyError` on an unknown code), rename the remaining fields to
snake_case. -/
def _build_transaction (prod : Product) (trans : RawTransaction) :
    Except PyError Transaction :=
  match buysell_map trans.buysell with
  | none => .error (.keyError trans.buysell)
  | some a =>
    .ok { id := toString trans.id, product := prod, date := trans.date, buysell := a,
          price := trans.price, quantity := trans.quantity, total := trans.total,
          transfered := trans.transfered, fx_rate := trans.fxRate,
          total_in_base_currency := trans.totalInBaseCurrency,
          total_plus_fee_in_base_currency := trans.totalPlusFeeInBaseCurrency }

/-- `asyncio.gather(*[_build_transaction(p, t) for p, t in zip(products, data)])`:
build one transaction per `zip` position; an unresolved product at a
position raises `ResolutionError` for that id, an untranslatable record
raises `KeyError`; `zip` truncates at the shorter list. -/
def build_transactions : List (Option Product) → List RawTransaction →
    Except PyError (List Transaction)
  | _, [] => .ok []
  | [], _ :: _ => .ok []
  | none :: _, t :: _ => .error (.resolutionError (toString t.productId))
  | some p :: ps, t :: ts =>
    match _build_transaction p t with
    | .error e => .error e
    | .ok tx =>
      match build_transactions ps ts with
      | .error e => .error e
      | .ok txs => .ok (tx :: txs)

/-- Environment of a `get_transactions` run: the clock, the product
resolver outcome per id, and the parsed raw records
(`resp.json()['data']`). -/
structure TransactionsEnv where
  now : PyDateTime := ⟨0⟩
  resolve : String → Option Product := fun _ => none
  data : List RawTransaction := []

/-- `get_transactions(session, from_date, to_date)` (`api/orders.py`
lines 155–196): default the date window (`to_date or today`,
`from_date or to_date - 7 days`), fetch the raw records, resolve all
product ids through `init_batch` in record order, then `zip` the
resolved products positionally with the raw records and build one
`Transaction` per pair. -/
def get_transactions (env : TransactionsEnv) (from_date to_date : Option PyDateTime) :
    List Request × Except PyError (List Transaction) :=
  let to_d := to_date.getD env.now
  let from_d := from_date.getD (to_d.subDays 7)
  let ids := env.data.map (fun t => toString t.productId)
  let products := init_batch env.resolve ids
  ([.transactionsUpdate (from_d.strftime ORDER_DATE_FORMAT) (to_d.strftime ORDER_DATE_FORMAT),
    .productsInfo ids],
    build_transactions products env.data)

/-! ## `check_order` (`api/orders.py` lines 64–107) -/

/-- `camelcase_dict_to_snake` (module `core`, not under `src/`;
modelled from the spec §4.5: field renaming from the wire naming
convention to the domain naming convention), applied to one key. -/
def camel_to_snake (s : String) : String :=
  ⟨s.data.foldl (fun acc c => if c.isUpper then acc ++ ['_', c.toLower] else acc ++ [c]) []⟩

/-- `camelcase_dict_to_snake` over a flat JSON object. -/
def camelcase_dict_to_snake (d : List (String × String)) : List (String × String) :=
  d.map (fun kv => (camel_to_snake kv.1, kv.2))

/-- Environment of a `check_order` run: the server response and its
parsed `data` field (the confirmation payload as a flat JSON object). -/
structure CheckOrderEnv where
  resp : HttpResponse := {}
  respData : Option (List (String × String)) := none

/-- `check_order(session, product=…, buy_sell=…, …)` (`api/orders.py`
lines 64–107): `assert buy_sell in ("BUY", "SELL")` runs before the
`webapi.check_order` request is issued (the endpoint itself lives in
`webapi`, not under `src/`; modelled from spec §6 as the order-check
request); on success the response's `data` is returned with keys
renamed to snake_case. -/
def check_order (env : CheckOrderEnv) (product : Product) (buy_sell : String)
    (time_type order_type : Nat) (size : Int) (price : Option ℚ) :
    List Request × Except PyError (List (String × String)) :=
  if buy_sell = "BUY" ∨ buy_sell = "SELL" then
    ([.checkOrder product.id buy_sell time_type order_type size price],
      match check_response env.resp with
      | .error e => .error e
      | .ok _ =>
        match env.respData with
        | none => .error (.keyError "data")
        | some d => .ok (camelcase_dict_to_snake d))
  else
    ([], .error (.assertionError "buy_sell must be in (BUY, SELL)"))

/-! ## Sanity checks of the embedded primitives (standard test vectors) -/

set_option maxRecDepth 200000

/-- FIPS 180-1 test vector: SHA-1 of `"abc"`. -/
example : sha1 [0x61, 0x62, 0x63] =
    [0xa9, 0x99, 0x3e, 0x36, 0x47, 0x06, 0x81, 0x6a, 0xba, 0x3e,
     0x25, 0x71, 0x78, 0x50, 0xc2, 0x6c, 0x9c, 0xd0, 0xd8, 0x9d] := by decide

/-- SHA-1 of the empty string. -/
example : sha1 [] =
    [0xda, 0x39, 0xa3, 0xee, 0x5e, 0x6b, 0x4b, 0x0d, 0x32, 0x55,
     0xbf, 0xef, 0x95, 0x60, 0x18, 0x90, 0xaf, 0xd8, 0x07, 0x09] := by decide

/-- RFC 2202 test case 1: HMAC-SHA1 with a 20-byte `0x0b` key over
`"Hi There"`. -/
example : hmacSha1 (List.replicate 20 0x0b)
      [0x48, 0x69, 0x20, 0x54, 0x68, 0x65, 0x72, 0x65] =
    [0xb6, 0x17, 0x31, 0x86, 0x55, 0x05, 0x72, 0x64, 0xe2, 0x8b,
     0xc0, 0xb6, 0xfb, 0x37, 0x8c, 0x8e, 0xf1, 0x46, 0xbe, 0x00] := by decide

/-- Base32 decoding of the RFC 6238 test secret. -/
example : b32decode "GEZDGNBVGY3TQOJQGEZDGNBVGY3TQOJQ" =
    some [49, 50, 51, 52, 53, 54, 55, 56, 57, 48,
          49, 50, 51, 52, 53, 54, 55, 56, 57, 48] := by decide

/-- RFC 6238 (SHA-1, 6 digits) at `time = 59`: the token is `287082`. -/
example : _get_totp_token 59 "GEZDGNBVGY3TQOJQGEZDGNBVGY3TQOJQ" = .ok 287082 := rfl

/-- Civil-date sanity: day 0 is 1970-01-01, day 19723 is 2024-01-01. -/
example : civilFromDays 0 = (1970, 1, 1) ∧ civilFromDays 19723 = (2024, 1, 1) := by decide

/-- Date formatting sanity. -/
example : (PyDateTime.strftime ⟨0⟩ ORDER_DATE_FORMAT) = "1970-01-01" := by decide

/-! ## Helper lemmas -/

/-- `buysell_map` returns `none` exactly off `"B"`/`"S"`. -/
theorem buysell_map_eq_none {code : String} (h1 : code ≠ "B") (h2 : code ≠ "S") :
    buysell_map code = none := by
  simp [buysell_map, h1, h2]

/-- Conversely, a failing `buysell_map` pins the code outside
`"B"`/`"S"`. -/
theorem ne_of_buysell_map_eq_none {code : String} (h : buysell_map code = none) :
    code ≠ "B" ∧ code ≠ "S" := by
  by_cases h1 : code = "B"
  · simp [buysell_map, h1] at h
  · by_cases h2 : code = "S"
    · simp [buysell_map, h2] at h
    · exact ⟨h1, h2⟩

/-- Any error of `orders_of_raw` is a `KeyError` on a side code outside
`"B"`/`"S"`. -/
theorem orders_of_raw_error : ∀ {l : List RawOrder} {e : PyError},
    orders_of_raw l = .error e →
    ∃ code, e = .keyError code ∧ code ≠ "B" ∧ code ≠ "S" := by
  intro l
  induction l with
  | nil => intro e h; simp [orders_of_raw] at h
  | cons o rest ih =>
    intro e h
    unfold orders_of_raw order_of_raw at h
    rcases hb : buysell_map o.buysell with _ | a
    · rw [hb] at h
      simp at h
      obtain ⟨h1, h2⟩ := ne_of_buysell_map_eq_none hb
      exact ⟨o.buysell, h.symm, h1, h2⟩
    · rw [hb] at h
      simp at h
      rcases hr : orders_of_raw rest with e' | os
      · rw [hr] at h
        simp at h
        exact h ▸ ih hr
      · rw [hr] at h
        simp at h

/-- A raw order list containing an untranslatable side code makes
`orders_of_raw` fail. -/
theorem orders_of_raw_error_of_bad {l : List RawOrder}
    (h : ∃ o ∈ l, o.buysell ≠ "B" ∧ o.buysell ≠ "S") :
    ∃ e, orders_of_raw l = .error e := by
  induction l with
  | nil => simp at h
  | cons o rest ih =>
    rcases h with ⟨o', ho', hbad⟩
    rcases List.mem_cons.mp ho' with rfl | hmem
    · refine ⟨.keyError o'.buysell, ?_⟩
      unfold orders_of_raw order_of_raw
      rw [buysell_map_eq_none hbad.1 hbad.2]
    · rcases ih ⟨o', hmem, hbad⟩ with ⟨e, he⟩
      unfold orders_of_raw
      rcases hb : order_of_raw o with e' | o''
      · exact ⟨e', rfl⟩
      · exact ⟨e, by rw [he]⟩

/-- A well-formed raw record with a resolved product builds a
transaction whose `product` field is exactly that product. -/
theorem _build_transaction_product {p : Product} {t : RawTransaction}
    (h : t.buysell = "B" ∨ t.buysell = "S") :
    ∃ tx, _build_transaction p t = .ok tx ∧ tx.product = p := by
  rcases h with h | h
  · exact ⟨{ id := toString t.id, product := p, date := t.date, buysell := .BUY,
             price := t.price, quantity := t.quantity, total := t.total,
             transfered := t.transfered, fx_rate := t.fxRate,
             total_in_base_currency := t.totalInBaseCurrency,
             total_plus_fee_in_base_currency := t.totalPlusFeeInBaseCurrency },
      by simp [_build_transaction, buysell_map, h], rfl⟩
  · exact ⟨{ id := toString t.id, product := p, date := t.date, buysell := .SELL,
             price := t.price, quantity := t.quantity, total := t.total,
             transfered := t.transfered, fx_rate := t.fxRate,
             total_in_base_currency := t.totalInBaseCurrency,
             total_plus_fee_in_base_currency := t.totalPlusFeeInBaseCurrency },
      by simp [_build_transaction, buysell_map, h], rfl⟩

/-- Core of the positional-join invariant: when every record's product
id resolves and every side code is translatable, building from the
`zip` of `init_batch`'s output with the records yields one transaction
per record, in order, whose `product` is the product resolved for that
record's id. -/
theorem build_transactions_positional (resolve : String → Option Product) :
    ∀ (data : List RawTransaction),
    (∀ r ∈ data, (resolve (toString r.productId)).isSome) →
    (∀ r ∈ data, r.buysell = "B" ∨ r.buysell = "S") →
    ∃ txs,
      build_transactions (data.map (fun r => resolve (toString r.productId))) data = .ok txs ∧
      txs.length = data.length ∧
      ∀ i, i < data.length → ∃ r tx,
        data[i]? = some r ∧ txs[i]? = some tx ∧
        resolve (toString r.productId) = some tx.product := by
  intro data
  induction data with
  | nil => exact fun _ _ => ⟨[], rfl, rfl, fun i hi => absurd hi (by simp)⟩
  | cons r rest ih =>
    intro hres hbs
    have hr : (resolve (toString r.productId)).isSome := hres r (by simp)
    rcases hp : resolve (toString r.productId) with _ | p
    · rw [hp] at hr; simp at hr
    · rcases _build_transaction_product (p := p) (hbs r (by simp)) with ⟨tx, htx, hprod⟩
      rcases ih (fun x hx => hres x (by simp [hx])) (fun x hx => hbs x (by simp [hx]))
        with ⟨txs, hbuild, hlen, hidx⟩
      refine ⟨tx :: txs, ?_, by simp [hlen], ?_⟩
      · simp only [List.map_cons, build_transactions, hp, htx, hbuild]
      · intro i hi
        match i with
        | 0 => exact ⟨r, tx, by simp, by simp, by rw [hp, hprod]⟩
        | i + 1 =>
          rcases hidx i (by simpa using hi) with ⟨r', tx', h1, h2, h3⟩
          exact ⟨r', tx', by simpa using h1, by simpa using h2, h3⟩

/-- When every product id resolves, any failure of the build step is a
`KeyError` on a side code outside `"B"`/`"S"`. -/
theorem build_transactions_error_of_bad (resolve : String → Option Product) :
    ∀ (data : List RawTransaction),
    (∀ r ∈ data, (resolve (toString r.productId)).isSome) →
    (∃ r ∈ data, r.buysell ≠ "B" ∧ r.buysell ≠ "S") →
    ∃ code, code ≠ "B" ∧ code ≠ "S" ∧
      build_transactions (data.map (fun r => resolve (toString r.productId))) data =
        .error (.keyError code) := by
  intro data
  induction data with
  | nil => intro _ h; simp at h
  | cons r rest ih =>
    intro hres hbad
    have hr : (resolve (toString r.productId)).isSome := hres r (by simp)
    rcases hp : resolve (toString r.productId) with _ | p
    · rw [hp] at hr; simp at hr
    · rcases hbad with ⟨r', hr', hb⟩
      rcases List.mem_cons.mp hr' with rfl | hmem
      · refine ⟨r'.buysell, hb.1, hb.2, ?_⟩
        simp only [List.map_cons, build_transactions, hp]
        rw [_build_transaction, buysell_map_eq_none hb.1 hb.2]
      · rcases ih (fun x hx => hres x (by simp [hx])) ⟨r', hmem, hb⟩
          with ⟨code, h1, h2, hbuild⟩
        rcases hbt : _build_transaction p r with e | tx
        · rcases hbe : buysell_map r.buysell with _ | a
          · obtain ⟨hb1, hb2⟩ := ne_of_buysell_map_eq_none hbe
            refine ⟨r.buysell, hb1, hb2, ?_⟩
            simp only [List.map_cons, build_transactions, hp]
            rw [_build_transaction, hbe]
          · rw [_build_transaction, hbe] at hbt; simp at hbt
        · refine ⟨code, h1, h2, ?_⟩
          simp only [List.map_cons, build_transactions, hp]
          rw [hbt, hbuild]

/-- `login` on a non-MFA status reduces to `finishLogin` of the initial
response. -/
theorem login_no_totp {env : LoginEnv} {status : Nat}
    (creds : Credentials) (s : Option SessionCore)
    (hst : env.loginResp.jsonStatus = some status) (hne : status ≠ TOTP_NEEDED) :
    login env creds s =
      finishLogin [.loginPost (mkLoginPayload creds)] env.loginResp (s.getD {}) := by
  simp [login, hst, hne]

/-- `finishLogin` on a status-valid response lacking the session cookie:
the session's cookies are overwritten with the response's cookies and
the `NoSessionId` assertion is raised. -/
theorem finishLogin_no_cookie (tr : List Request) {resp : HttpResponse}
    (sess : SessionCore) (hok : resp.status_code = 200)
    (hnc : resp.cookies.lookup SessionCore.JSESSIONID = none) :
    finishLogin tr resp sess =
      ⟨tr, { sess with _cookies := resp.cookies }, .error (.assertionError noSessionMsg)⟩ := by
  simp [finishLogin, check_response, hok, hnc]

/-- Any normal return of `finishLogin` carries the session cookie. -/
theorem finishLogin_ok_jsessionid {tr : List Request} {resp : HttpResponse}
    {sess r : SessionCore} (h : (finishLogin tr resp sess).outcome = .ok r) :
    (r._cookies.lookup SessionCore.JSESSIONID).isSome := by
  unfold finishLogin at h
  rcases hc : check_response resp with e | u
  · rw [hc] at h; simp at h
  · rw [hc] at h
    simp only at h
    rcases hl : (resp.cookies.lookup SessionCore.JSESSIONID) with _ | v
    · rw [hl] at h; simp at h
    · rw [hl] at h
      simp at h
      rw [← h]
      simp [hl]

/-- The outcome component of `get_transactions`, with the resolver
composed into one map over the records. -/
theorem get_transactions_outcome (env : TransactionsEnv) (f t : Option PyDateTime) :
    (get_transactions env f t).2 =
      build_transactions (env.data.map (fun r => env.resolve (toString r.productId)))
        env.data := by
  show build_transactions ((env.data.map (fun r => toString r.productId)).map env.resolve)
    env.data = _
  rw [List.map_map]
  rfl

/-! ## Claim theorems -/

/-- C4: for every well-formed base32 secret and fixed timestamp the
TOTP generator's output is deterministic (a function of the secret and
the 30-second window only) and a value in 0–999999, computed as
HMAC-SHA1 of the decoded secret over the 8-byte big-endian counter
`floor(timestamp/30)` with dynamic truncation at offset
`lastByte & 0xF`, top bit masked, reduced modulo 1,000,000 — the
latter stated as agreement with `totp_spec`, which transcribes the
spec's words. (The source returns the token as an `int`, so
left-zero-padding is presentational and does not arise.) -/
theorem totp_token_correct (secret : String) (key : List Nat) (t t' : Nat)
    (hsec : b32decode secret = some key) (hbound : t / 30 < 2 ^ 64)
    (hw : t / 30 = t' / 30) :
    ∃ n, _get_totp_token t secret = .ok n ∧ n ≤ 999999 ∧
      _get_totp_token t' secret = .ok n ∧ totp_spec secret t = .ok n := by
  refine ⟨(unpack4BE (((hmacSha1 key (pack8BE (t / 30))).drop
      ((hmacSha1 key (pack8BE (t / 30))).getD 19 0 &&& 15)).take 4) &&& 0x7fffffff) % 1000000,
    ?_, ?_, ?_, ?_⟩
  · unfold _get_totp_token
    rw [hsec]
    simp [hbound]
    exact hbound
  · have := Nat.mod_lt (unpack4BE (((hmacSha1 key (pack8BE (t / 30))).drop
      ((hmacSha1 key (pack8BE (t / 30))).getD 19 0 &&& 15)).take 4) &&& 0x7fffffff)
      (y := 1000000) (by norm_num)
    omega
  · unfold _get_totp_token
    rw [hsec, ← hw]
    simp [hbound]
    exact hbound
  · unfold totp_spec
    rw [hsec]
    simp [hbound]
    exact hbound

/-- C4 witness: the theorem applied at the RFC 6238 secret with the
timestamps 59 and 45 (same 30-second window). -/
theorem totp_token_correct_witness :
    ∃ n, _get_totp_token 59 "GEZDGNBVGY3TQOJQGEZDGNBVGY3TQOJQ" = .ok n ∧ n ≤ 999999 ∧
      _get_totp_token 45 "GEZDGNBVGY3TQOJQGEZDGNBVGY3TQOJQ" = .ok n ∧
      totp_spec "GEZDGNBVGY3TQOJQGEZDGNBVGY3TQOJQ" 59 = .ok n :=
  totp_token_correct "GEZDGNBVGY3TQOJQGEZDGNBVGY3TQOJQ"
    [49, 50, 51, 52, 53, 54, 55, 56, 57, 48, 49, 50, 51, 52, 53, 54, 55, 56, 57, 48]
    59 45 (by decide) (by decide) (by decide)

/-- C5: side-code translation accepts exactly `'B'` (BUY) and `'S'`
(SELL); in `get_orders` and `get_transactions` (there with all product
ids resolvable, so that batch resolution does not fail first) any
record whose `buysell` code is another value makes the operation raise
a `KeyError` on that untranslatable code instead of producing a
record. -/
theorem side_code_translation :
    buysell_map "B" = some ORDER.ACTION.BUY ∧
    buysell_map "S" = some ORDER.ACTION.SELL ∧
    (∀ code, code ≠ "B" → code ≠ "S" → buysell_map code = none) ∧
    (∀ (env : OrdersEnv) (f t : Option PyDateTime) (cur hist : List RawOrder),
      env.currentResp = .ok cur → env.historyResp = .ok hist →
      (∃ o ∈ cur ++ hist, o.buysell ≠ "B" ∧ o.buysell ≠ "S") →
      ∃ code, code ≠ "B" ∧ code ≠ "S" ∧
        (get_orders env f t).2 = .error (.keyError code)) ∧
    (∀ (env : TransactionsEnv) (f t : Option PyDateTime),
      (∀ r ∈ env.data, (env.resolve (toString r.productId)).isSome) →
      (∃ r ∈ env.data, r.buysell ≠ "B" ∧ r.buysell ≠ "S") →
      ∃ code, code ≠ "B" ∧ code ≠ "S" ∧
        (get_transactions env f t).2 = .error (.keyError code)) := by
  refine ⟨rfl, rfl, fun code h1 h2 => buysell_map_eq_none h1 h2, ?_, ?_⟩
  · intro env f t cur hist hcur hhist hbad
    rcases hbad with ⟨o, ho, hb⟩
    rcases List.mem_append.mp ho with hmem | hmem
    · rcases orders_of_raw_error_of_bad ⟨o, hmem, hb⟩ with ⟨e, he⟩
      rcases orders_of_raw_error he with ⟨code, rfl, h1, h2⟩
      exact ⟨code, h1, h2, by simp [get_orders, hcur, hhist, he]⟩
    · rcases hcur' : orders_of_raw cur with e | cur'
      · rcases orders_of_raw_error hcur' with ⟨code, rfl, h1, h2⟩
        exact ⟨code, h1, h2, by simp [get_orders, hcur, hhist, hcur']⟩
      · rcases orders_of_raw_error_of_bad ⟨o, hmem, hb⟩ with ⟨e, he⟩
        rcases orders_of_raw_error he with ⟨code, rfl, h1, h2⟩
        exact ⟨code, h1, h2, by simp [get_orders, hcur, hhist, hcur', he]⟩
  · intro env f t hres hbad
    rcases build_transactions_error_of_bad env.resolve env.data hres hbad
      with ⟨code, h1, h2, hbuild⟩
    exact ⟨code, h1, h2, by rw [get_transactions_outcome]; exact hbuild⟩

/-- C5 witness: the translation table at `"B"`, `"S"` and `"X"`, and
both operations failing on a single record with side code `"X"`. -/
theorem side_code_translation_witness :
    buysell_map "X" = none ∧
    (∃ code, code ≠ "B" ∧ code ≠ "S" ∧
      (get_orders { currentResp := .ok [{ buysell := "X" }], historyResp := .ok [] }
        none none).2 = .error (.keyError code)) ∧
    (∃ code, code ≠ "B" ∧ code ≠ "S" ∧
      (get_transactions
        { resolve := fun _ => some { id := "0" }, data := [{ buysell := "X" }] }
        none none).2 = .error (.keyError code)) :=
  ⟨side_code_translation.2.2.1 "X" (by decide) (by decide),
   side_code_translation.2.2.2.1 { currentResp := .ok [{ buysell := "X" }], historyResp := .ok [] }
     none none [{ buysell := "X" }] [] rfl rfl
     ⟨{ buysell := "X" }, by simp, by decide, by decide⟩,
   side_code_translation.2.2.2.2
     { resolve := fun _ => some { id := "0" }, data := [{ buysell := "X" }] }
     none none (by intro r hr; simp at hr; simp [hr])
     ⟨{ buysell := "X" }, by simp, by decide, by decide⟩⟩

/-- C6: with no date arguments, `get_orders` and `get_transactions`
default `to_date` to the current clock and `from_date` to
`to_date - 7 days`; with only `to_date` supplied, `from_date` defaults
to that `to_date` minus 7 days; the dates reach the underlying
requests formatted with the shared `ORDER_DATE_FORMAT` and otherwise
unchanged. -/
theorem date_window_defaults (envO : OrdersEnv) (envT : TransactionsEnv) :
    ((get_orders envO none none).1 =
      [.tradingUpdate ["orders", "historicalOrders"],
       .ordersHistory ((envO.now.subDays 7).strftime ORDER_DATE_FORMAT)
         (envO.now.strftime ORDER_DATE_FORMAT)]) ∧
    (∀ to_d, (get_orders envO none (some to_d)).1 =
      [.tradingUpdate ["orders", "historicalOrders"],
       .ordersHistory ((to_d.subDays 7).strftime ORDER_DATE_FORMAT)
         (to_d.strftime ORDER_DATE_FORMAT)]) ∧
    (∀ f t, (get_orders envO (some f) (some t)).1 =
      [.tradingUpdate ["orders", "historicalOrders"],
       .ordersHistory (f.strftime ORDER_DATE_FORMAT) (t.strftime ORDER_DATE_FORMAT)]) ∧
    ((get_transactions envT none none).1 =
      [.transactionsUpdate ((envT.now.subDays 7).strftime ORDER_DATE_FORMAT)
         (envT.now.strftime ORDER_DATE_FORMAT),
       .productsInfo (envT.data.map (fun t => toString t.productId))]) ∧
    (∀ to_d, (get_transactions envT none (some to_d)).1 =
      [.transactionsUpdate ((to_d.subDays 7).strftime ORDER_DATE_FORMAT)
         (to_d.strftime ORDER_DATE_FORMAT),
       .productsInfo (envT.data.map (fun t => toString t.productId))]) :=
  ⟨rfl, fun _ => rfl, fun _ _ => rfl, rfl, fun _ => rfl⟩

/-- C1: for every raw transaction list of N records with a resolvable
product id (and, as for all records the trading-update call emits, a
translatable side code), `get_transactions` produces exactly N
`Transaction`s in the original record order, and the i-th transaction's
`product` field is the `Product` resolved for the i-th record's
`productId` — the join between raw records and resolved products is
positional. -/
theorem get_transactions_positional_join (env : TransactionsEnv)
    (f t : Option PyDateTime)
    (hres : ∀ r ∈ env.data, (env.resolve (toString r.productId)).isSome)
    (hbs : ∀ r ∈ env.data, r.buysell = "B" ∨ r.buysell = "S") :
    ∃ txs, (get_transactions env f t).2 = .ok txs ∧
      txs.length = env.data.length ∧
      ∀ i, i < env.data.length → ∃ r tx,
        env.data[i]? = some r ∧ txs[i]? = some tx ∧
        env.resolve (toString r.productId) = some tx.product := by
  rcases build_transactions_positional env.resolve env.data hres hbs
    with ⟨txs, hbuild, hlen, hidx⟩
  exact ⟨txs, by rw [get_transactions_outcome]; exact hbuild, hlen, hidx⟩

/-- C1 witness: a 3-record raw transaction list, every id resolvable;
three transactions come back in order, each carrying the product
resolved for its row. -/
theorem get_transactions_positional_join_witness :
    ∃ txs,
      (get_transactions
        { resolve := fun i => some { id := i },
          data := [{ productId := 11, buysell := "B" },
                   { productId := 22, buysell := "S" },
                   { productId := 33, buysell := "B" }] }
        none none).2 = .ok txs ∧
      txs.length = 3 ∧
      ∀ i, i < 3 → ∃ r tx,
        ([{ productId := 11, buysell := "B" },
          { productId := 22, buysell := "S" },
          { productId := 33, buysell := "B" }] : List RawTransaction)[i]? = some r ∧
        txs[i]? = some tx ∧
        some { id := toString r.productId } = some tx.product :=
  get_transactions_positional_join
    { resolve := fun i => some { id := i },
      data := [{ productId := 11, buysell := "B" },
               { productId := 22, buysell := "S" },
               { productId := 33, buysell := "B" }] }
    none none
    (by intro r hr; simp)
    (by intro r hr; simp at hr; rcases hr with rfl | rfl | rfl
        · exact Or.inl rfl
        · exact Or.inr rfl
        · exact Or.inl rfl)

/-- C7: `get_client_info` depends only on the session cookie (and the
server response), not on `session.config`: for any session whose
cookie jar holds the session cookie — its `config` field arbitrary, in
particular `none` when `get_config` has not yet been called — and a
status-valid, well-formed response, the call issues exactly the
client-info request and succeeds, storing the account identifier. -/
theorem get_client_info_needs_only_cookie (env : ClientInfoEnv)
    (session : SessionCore) (sid : String) (pa : PAClient)
    (hc : session._cookies.lookup SessionCore.JSESSIONID = some sid)
    (hok : env.resp.status_code = 200) (hd : env.respData = some pa) :
    get_client_info env session =
      ([.clientInfo sid], .ok { session with client := some pa }) := by
  unfold get_client_info
  rw [hc]
  simp [check_response, hok, hd]

/-- C7 witness: a session with the cookie set and `config := none`
(no `get_config` yet). -/
theorem get_client_info_needs_only_cookie_witness :
    get_client_info { resp := { status_code := 200 }, respData := some { intAccount := 42 } }
      { _cookies := [("JSESSIONID", "sid123")], config := none, client := none } =
    ([.clientInfo "sid123"],
      .ok { _cookies := [("JSESSIONID", "sid123")], config := none,
            client := some { intAccount := 42 } }) :=
  get_client_info_needs_only_cookie
    { resp := { status_code := 200 }, respData := some { intAccount := 42 } }
    { _cookies := [("JSESSIONID", "sid123")], config := none, client := none }
    "sid123" { intAccount := 42 } (by decide) rfl rfl

/-- C8: if either the current-orders fetch or the historical-orders
fetch fails, `get_orders` fails with that error and returns no
half-populated pair; when both succeed (and translate), the result is
the pair of the two collections, each normalized by the same
translation `orders_of_raw`. -/
theorem get_orders_fail_fast (env : OrdersEnv) (f t : Option PyDateTime) :
    (∀ e, env.currentResp = .error e → (get_orders env f t).2 = .error e) ∧
    (∀ e cur, env.currentResp = .ok cur → env.historyResp = .error e →
      (get_orders env f t).2 = .error e) ∧
    (∀ cur hist cur' hist', env.currentResp = .ok cur → env.historyResp = .ok hist →
      orders_of_raw cur = .ok cur' → orders_of_raw hist = .ok hist' →
      (get_orders env f t).2 = .ok (cur', hist')) := by
  refine ⟨?_, ?_, ?_⟩
  · intro e hc
    simp [get_orders, hc]
  · intro e cur hc hh
    simp [get_orders, hc, hh]
  · intro cur hist cur' hist' hc hh hcur hhist
    simp [get_orders, hc, hh, hcur, hhist]

/-- C8 witness: a failing history fetch aborts the whole call with that
error; two successful fetches produce the normalized pair. -/
theorem get_orders_fail_fast_witness :
    ((get_orders { currentResp := .ok [], historyResp := .error (.responseError 500) }
      none none).2 = .error (.responseError 500)) ∧
    ((get_orders { currentResp := .ok [{ buysell := "B" }], historyResp := .ok [] }
      none none).2 =
      .ok ([{ created := "", orderId := "", productId := "0", size := 0, price := 0,
              buysell := .BUY, orderTypeId := 0, orderTimeTypeId := 0,
              currentTradedSize := 0, totalTradedSize := 0, type := "",
              isActive := true, status := "" }], [])) :=
  ⟨(get_orders_fail_fast { currentResp := .ok [], historyResp := .error (.responseError 500) }
      none none).2.1 (.responseError 500) [] rfl rfl,
   (get_orders_fail_fast { currentResp := .ok [{ buysell := "B" }], historyResp := .ok [] }
      none none).2.2 [{ buysell := "B" }] [] _ [] rfl rfl rfl rfl⟩

/-- C10: `check_order` raises `AssertionError` on any `buy_sell` other
than `"BUY"`/`"SELL"` before issuing any network request (its request
trace is empty); under the precondition `buy_sell ∈ range`, the
assertion branch is unreachable and exactly the order-check request is
issued. -/
theorem check_order_asserts_side (env : CheckOrderEnv) (product : Product)
    (time_type order_type : Nat) (size : Int) (price : Option ℚ) :
    (∀ buy_sell, buy_sell ≠ "BUY" → buy_sell ≠ "SELL" →
      check_order env product buy_sell time_type order_type size price =
        ([], .error (.assertionError "buy_sell must be in (BUY, SELL)"))) ∧
    (∀ buy_sell, buy_sell = "BUY" ∨ buy_sell = "SELL" →
      (check_order env product buy_sell time_type order_type size price).1 =
        [.checkOrder product.id buy_sell time_type order_type size price]) := by
  constructor
  · intro buy_sell h1 h2
    simp [check_order, h1, h2]
  · intro buy_sell h
    simp [check_order, h]

/-- C10 witness: `buy_sell = "HOLD"` raises with no request; `"BUY"`
issues the order-check request. -/
theorem check_order_asserts_side_witness :
    (check_order {} { id := "96008" : Product } "HOLD" 1 1 1 none =
      ([], .error (.assertionError "buy_sell must be in (BUY, SELL)"))) ∧
    ((check_order {} { id := "96008" : Product } "BUY" 1 1 1 none).1 =
      [.checkOrder "96008" "BUY" 1 1 1 none]) :=
  ⟨(check_order_asserts_side {} { id := "96008" } 1 1 1 none).1 "HOLD"
      (by decide) (by decide),
   (check_order_asserts_side {} { id := "96008" } 1 1 1 none).2 "BUY" (Or.inl rfl)⟩

/-- C2: when the first login response reports that MFA is required and
neither a TOTP secret nor a one-time password is supplied, `login`
fails with the missing-challenge-credential `AssertionError`
(`AuthenticationError` / `MissingChallengeCredential` in the spec's
taxonomy), having issued only the initial login request — the
challenge endpoint is never called — and leaves the session
untouched. -/
theorem login_mfa_missing_credential (env : LoginEnv) (creds : Credentials)
    (s : Option SessionCore)
    (hst : env.loginResp.jsonStatus = some TOTP_NEEDED)
    (hsec : creds.totp_secret = none) (hotp : creds.one_time_password = none) :
    login env creds s =
      ⟨[.loginPost (mkLoginPayload creds)], s.getD {},
        .error (.assertionError missingTotpMsg)⟩ := by
  simp [login, hst, hsec, hotp]

/-- C2 witness: a challenged login with bare username/password
credentials fails with the missing-credential assertion after the
single initial request. -/
theorem login_mfa_missing_credential_witness :
    login { loginResp := { jsonStatus := some TOTP_NEEDED } }
      { username := "user", password := "pw" } none =
      ⟨[.loginPost { username := "user", password := "pw" }], {},
        .error (.assertionError missingTotpMsg)⟩ :=
  login_mfa_missing_credential { loginResp := { jsonStatus := some TOTP_NEEDED } }
    { username := "user", password := "pw" } none rfl rfl rfl

/-- C3: after `check_response` accepts the terminal response, `login`
requires the `JSESSIONID` cookie: a status-valid response lacking it
raises the `NoSessionId` assertion even though the HTTP status was
success; consequently every `login` that returns normally returns a
session whose cookie jar contains the session-identifying cookie. -/
theorem login_requires_jsessionid :
    (∀ (env : LoginEnv) (creds : Credentials) (s : Option SessionCore) (status : Nat),
      env.loginResp.jsonStatus = some status → status ≠ TOTP_NEEDED →
      env.loginResp.status_code = 200 →
      env.loginResp.cookies.lookup SessionCore.JSESSIONID = none →
      (login env creds s).outcome = .error (.assertionError noSessionMsg)) ∧
    (∀ (env : LoginEnv) (creds : Credentials) (s : Option SessionCore) (r : SessionCore),
      (login env creds s).outcome = .ok r →
      (r._cookies.lookup SessionCore.JSESSIONID).isSome) := by
  constructor
  · intro env creds s status hst hne hok hnc
    rw [login_no_totp creds s hst hne, finishLogin_no_cookie _ _ hok hnc]
  · intro env creds s r h
    unfold login at h
    rcases hst : env.loginResp.jsonStatus with _ | status
    · rw [hst] at h; simp at h
    · rw [hst] at h
      simp only at h
      by_cases hne : status = TOTP_NEEDED
      · rw [if_pos hne] at h
        rcases hs : creds.totp_secret with _ | secret
        · rcases ho : creds.one_time_password with _ | otp
          · rw [hs, ho] at h; simp at h
          · rw [hs, ho] at h
            exact finishLogin_ok_jsessionid h
        · rcases ho : creds.one_time_password with _ | otp <;>
          · rw [hs, ho] at h
            simp only at h
            rcases ht : _get_totp_token env.now secret with e | token
            · rw [ht] at h; simp at h
            · rw [ht] at h
              exact finishLogin_ok_jsessionid h
      · rw [if_neg hne] at h
        exact finishLogin_ok_jsessionid h

/-- C3 witness: a 200 login response without the cookie raises the
`NoSessionId` assertion; one with the cookie returns a session holding
it. -/
theorem login_requires_jsessionid_witness :
    ((login { loginResp := { status_code := 200, jsonStatus := some 0 } }
      { username := "user", password := "pw" } none).outcome =
        .error (.assertionError noSessionMsg)) ∧
    ((({ _cookies := [("JSESSIONID", "abc")] } : SessionCore)._cookies.lookup
        SessionCore.JSESSIONID).isSome) :=
  ⟨login_requires_jsessionid.1
      { loginResp := { status_code := 200, jsonStatus := some 0 } }
      { username := "user", password := "pw" } none 0 rfl (by decide) rfl rfl,
   login_requires_jsessionid.2
      { loginResp := { status_code := 200, jsonStatus := some 0,
                       cookies := [("JSESSIONID", "abc")] } }
      { username := "user", password := "pw" } none
      { _cookies := [("JSESSIONID", "abc")] } (by rfl)⟩

/-- C9: when the terminal response passes the status check but lacks
the session cookie, `login` assigns the response's cookies to
`session._cookies` before raising: the caller-supplied session object
is mutated (its previous cookies overwritten) even though the call
fails — the failure is not atomic with respect to session state. -/
theorem login_mutates_cookies_before_nosession (env : LoginEnv)
    (creds : Credentials) (s : SessionCore) (status : Nat)
    (hst : env.loginResp.jsonStatus = some status) (hne : status ≠ TOTP_NEEDED)
    (hok : env.loginResp.status_code = 200)
    (hnc : env.loginResp.cookies.lookup SessionCore.JSESSIONID = none) :
    (login env creds (some s)).session._cookies = env.loginResp.cookies ∧
    (login env creds (some s)).outcome = .error (.assertionError noSessionMsg) := by
  rw [login_no_totp creds (some s) hst hne, finishLogin_no_cookie _ _ hok hnc]
  exact ⟨rfl, rfl⟩

/-- C9 witness: a caller session with pre-existing cookies sees them
overwritten by the (cookie-less) response even though the login
fails. -/
theorem login_mutates_cookies_before_nosession_witness :
    ((login { loginResp := { status_code := 200, jsonStatus := some 0,
                             cookies := [("other", "v")] } }
      { username := "user", password := "pw" }
      (some { _cookies := [("JSESSIONID", "old")] })).session._cookies =
        [("other", "v")]) ∧
    ((login { loginResp := { status_code := 200, jsonStatus := some 0,
                             cookies := [("other", "v")] } }
      { username := "user", password := "pw" }
      (some { _cookies := [("JSESSIONID", "old")] })).outcome =
        .error (.assertionError noSessionMsg)) :=
  login_mutates_cookies_before_nosession
    { loginResp := { status_code := 200, jsonStatus := some 0,
                     cookies := [("other", "v")] } }
    { username := "user", password := "pw" }
    { _cookies := [("JSESSIONID", "old")] } 0 rfl (by decide) rfl (by decide)

end Degiroasync
